import Mathlib

/-!
Shallow embedding of the oapi-codegen gin-middleware validation layer
(`oapi_validate_response.go`, `utils.go`, and the request-validation
sibling file), together with theorems about the response-interception
pipeline, the middleware wrappers, and the error classification.

External collaborators (the kin-openapi router and the openapi3filter
validation engine) are modelled as function-valued fields of `Swagger`:
the contract determines routing and validation verdicts, and the code
under verification only consumes their results.
-/

namespace GinMiddleware

/-- Go byte slice (`[]byte`); byte values are never inspected arithmetically. -/
abbrev Bytes := List Nat

/-- One call committed to the real response transport: either a raw body
write (`ResponseWriter.Write`) or a JSON body rendered by
`c.AbortWithStatusJSON` through the external JSON encoder. -/
inductive WriteEvent where
  | bytes (bs : Bytes)
  | jsonBody (fields : List (String × String))
deriving DecidableEq, Repr

/-- State of the real `gin.ResponseWriter`: recorded status, header
multimap (as an append-ordered association list), and the sequence of
write calls that reached the transport. -/
structure ResponseState where
  status : Nat
  headers : List (String × String)
  events : List WriteEvent
deriving DecidableEq, Repr

/-- The request-scoped slice of `gin.Context` state the middleware touches:
the response writer and the abort flag (`c.Abort`). -/
structure GinState where
  response : ResponseState
  aborted : Bool
deriving DecidableEq, Repr

/-- An effect the downstream handler issues against its `gin.ResponseWriter`:
`WriteHeader`, a header mutation, or a body `Write`. -/
inductive HandlerAction where
  | writeHeader (code : Nat)
  | setHeader (k v : String)
  | write (bs : Bytes)
deriving DecidableEq, Repr

/-- `responseInterceptor`: embeds the real `gin.ResponseWriter` and adds a
body buffer; only `Write` is overridden. -/
structure ResponseInterceptor where
  responseWriter : ResponseState
  body : Bytes
deriving DecidableEq, Repr

/-- One handler action executed against the interceptor: `Write` goes to the
buffer (`w.body.Write(b)`), everything else is promoted to the embedded real
writer. -/
def interceptStep (w : ResponseInterceptor) : HandlerAction → ResponseInterceptor
  | .writeHeader code =>
      { w with responseWriter := { w.responseWriter with status := code } }
  | .setHeader k v =>
      { w with responseWriter :=
          { w.responseWriter with headers := w.responseWriter.headers ++ [(k, v)] } }
  | .write bs => { w with body := w.body ++ bs }

/-- `c.Next()` with the interceptor installed: the handler's actions run in
order against the interceptor. -/
def runIntercepted (actions : List HandlerAction) (w : ResponseInterceptor) :
    ResponseInterceptor :=
  actions.foldl interceptStep w

/-- One handler action executed against the bare real writer (no interceptor):
`Write` reaches the transport directly. -/
def directStep (s : ResponseState) : HandlerAction → ResponseState
  | .writeHeader code => { s with status := code }
  | .setHeader k v => { s with headers := s.headers ++ [(k, v)] }
  | .write bs => { s with events := s.events ++ [.bytes bs] }

/-- Handler execution against the bare real writer. -/
def runDirect (actions : List HandlerAction) (s : ResponseState) : ResponseState :=
  actions.foldl directStep s

/-- Final status after a handler action sequence, from a starting status. -/
def handlerFinalStatus : List HandlerAction → Nat → Nat
  | [], s => s
  | .writeHeader c :: rest, _ => handlerFinalStatus rest c
  | .setHeader _ _ :: rest, s => handlerFinalStatus rest s
  | .write _ :: rest, s => handlerFinalStatus rest s

/-- Final header list after a handler action sequence. -/
def handlerFinalHeaders : List HandlerAction → List (String × String) →
    List (String × String)
  | [], hs => hs
  | .writeHeader _ :: rest, hs => handlerFinalHeaders rest hs
  | .setHeader k v :: rest, hs => handlerFinalHeaders rest (hs ++ [(k, v)])
  | .write _ :: rest, hs => handlerFinalHeaders rest hs

/-- Concatenation of all body bytes a handler action sequence writes. -/
def handlerWrites : List HandlerAction → Bytes
  | [] => []
  | .write bs :: rest => bs ++ handlerWrites rest
  | .writeHeader _ :: rest => handlerWrites rest
  | .setHeader _ _ :: rest => handlerWrites rest

/-- The transport write calls a handler action sequence issues when it runs
against the bare real writer. -/
def handlerWriteEvents : List HandlerAction → List WriteEvent
  | [] => []
  | .write bs :: rest => .bytes bs :: handlerWriteEvents rest
  | .writeHeader _ :: rest => handlerWriteEvents rest
  | .setHeader _ _ :: rest => handlerWriteEvents rest

theorem runIntercepted_spec (actions : List HandlerAction) :
    ∀ w : ResponseInterceptor,
      runIntercepted actions w =
        { responseWriter :=
            { status := handlerFinalStatus actions w.responseWriter.status,
              headers := handlerFinalHeaders actions w.responseWriter.headers,
              events := w.responseWriter.events },
          body := w.body ++ handlerWrites actions } := by
  induction actions with
  | nil =>
      intro w
      simp [runIntercepted, handlerFinalStatus, handlerFinalHeaders, handlerWrites]
  | cons a rest ih =>
      intro w
      cases a with
      | writeHeader code =>
          have h := ih (interceptStep w (.writeHeader code))
          simpa [runIntercepted, interceptStep, handlerFinalStatus,
            handlerFinalHeaders, handlerWrites] using h
      | setHeader k v =>
          have h := ih (interceptStep w (.setHeader k v))
          simpa [runIntercepted, interceptStep, handlerFinalStatus,
            handlerFinalHeaders, handlerWrites] using h
      | write bs =>
          have h := ih (interceptStep w (.write bs))
          simpa [runIntercepted, interceptStep, handlerFinalStatus,
            handlerFinalHeaders, handlerWrites, List.append_assoc] using h

theorem runDirect_spec (actions : List HandlerAction) :
    ∀ s : ResponseState,
      runDirect actions s =
        { status := handlerFinalStatus actions s.status,
          headers := handlerFinalHeaders actions s.headers,
          events := s.events ++ handlerWriteEvents actions } := by
  induction actions with
  | nil =>
      intro s
      simp [runDirect, handlerFinalStatus, handlerFinalHeaders, handlerWriteEvents]
  | cons a rest ih =>
      intro s
      cases a with
      | writeHeader code =>
          have h := ih (directStep s (.writeHeader code))
          simpa [runDirect, directStep, handlerFinalStatus,
            handlerFinalHeaders, handlerWriteEvents] using h
      | setHeader k v =>
          have h := ih (directStep s (.setHeader k v))
          simpa [runDirect, directStep, handlerFinalStatus,
            handlerFinalHeaders, handlerWriteEvents] using h
      | write bs =>
          have h := ih (directStep s (.write bs))
          simpa [runDirect, directStep, handlerFinalStatus,
            handlerFinalHeaders, handlerWriteEvents, List.append_assoc] using h

/-- The heterogeneous error shapes the openapi3filter engine can return:
an `openapi3.MultiError` aggregate (carried as the texts of its sub-errors),
a structured `*openapi3filter.RequestError`, a structured
`*openapi3filter.ResponseError`, a `*openapi3filter.SecurityRequirementsError`,
or an unrecognized error (all carried as their `Error()` text). -/
inductive EngineError where
  | multi (subs : List String)
  | requestError (text : String)
  | responseError (text : String)
  | security (text : String)
  | other (text : String)
deriving DecidableEq, Repr

/-- The text rendered when " | " is spliced between sub-error texts:
`openapi3.MultiError.Error()` in the external library. -/
def multiErrorText (subs : List String) : String :=
  String.intercalate " | " subs

/-- The `Error()` text of each engine error shape. -/
def EngineError.text : EngineError → String
  | .multi subs => multiErrorText subs
  | .requestError t => t
  | .responseError t => t
  | .security t => t
  | .other t => t

/-- A Go `error` value produced by this package: its `Error()` message and,
when built by `fmt.Errorf` with the wrapping verb, the preserved cause. -/
structure GoError where
  msg : String
  cause : Option EngineError := none
deriving DecidableEq, Repr

/-- An error returned by `router.FindRoute`: either a typed
`*routers.RouteError` (with its `Reason` field) or some other error with its
`Error()` text. -/
inductive RouteErr where
  | routeError (reason : String)
  | other (text : String)
deriving DecidableEq, Repr

/-- The raw `Error()` text of a router error (`routers.RouteError.Error()`
returns the `Reason` field). -/
def RouteErr.text : RouteErr → String
  | .routeError reason => reason
  | .other t => t

/-- Embedding of the route-failure branch of `ValidateResponseFromContext`
(lines 97-108): a typed `*routers.RouteError` yields `errors.New(e.Reason)`,
anything else yields the decorated raw text. -/
def routeErrorGoError : RouteErr → GoError
  | .routeError reason => { msg := reason }
  | .other t => { msg := "error validating route: " ++ t }

/-- First element of `strings.Split(s, "\n")`: the longest leading run of
characters before a newline. -/
def firstLine (s : String) : String :=
  ⟨s.data.takeWhile (fun c => c != '\n')⟩

/-- The `Options` struct: a custom `ErrorHandler`, a custom
`MultiErrorHandler`, and `SilenceServersWarning`. The engine-specific
sub-options, `ParamDecoder`, and `UserData` are pass-through payload for the
external engine and are not modelled. A custom `ErrorHandler` is an arbitrary
function of the gin context, the message, and the status code. -/
structure Options where
  errorHandler : Option (GinState → String → Nat → GinState) := none
  multiErrorHandler : Option (List String → GoError) := none
  silenceServersWarning : Bool := false

/-- The `ErrorHandler` configured by an optional `Options` value
(`options != nil && options.ErrorHandler != nil`). -/
def optErrorHandler : Option Options → Option (GinState → String → Nat → GinState)
  | none => none
  | some o => o.errorHandler

/-- `defaultMultiErrorHandler` from `utils.go`: wraps the joined sub-error
texts behind the `multiple errors encountered` message. -/
def defaultMultiErrorHandler (me : List String) : GoError :=
  { msg := "multiple errors encountered: " ++ multiErrorText me }

/-- `getMultiErrorHandlerFromOptions` from `utils.go`: the configured
`MultiErrorHandler`, or the default when options or the handler are absent. -/
def getMultiErrorHandlerFromOptions (options : Option Options) :
    List String → GoError :=
  match options with
  | none => defaultMultiErrorHandler
  | some o =>
    match o.multiErrorHandler with
    | none => defaultMultiErrorHandler
    | some h => h

/-- Embedding of the error-classification branch of
`ValidateResponseFromContext` (lines 150-174): the `errors.As` aggregate
check runs first; then the type switch on `*openapi3filter.ResponseError`
(first line of the verbose text) and `*openapi3filter.SecurityRequirementsError`
(full text); every remaining shape is wrapped by
`fmt.Errorf("error validating response: %w", err)`, preserving the cause. -/
def classifyResponseError (options : Option Options) (e : EngineError) : GoError :=
  match e with
  | .multi subs => getMultiErrorHandlerFromOptions options subs
  | .responseError text =>
      { msg := "error in openapi3filter.ResponseError: " ++ firstLine text }
  | .security text =>
      { msg := "error in openapi3filter.SecurityRequirementsError: " ++ text }
  | e' => { msg := "error validating response: " ++ e'.text, cause := some e' }

/-- Embedding of the error-classification branch of
`ValidateRequestFromContext` (request-validation file, lines 85-107):
aggregate check first; then `*openapi3filter.RequestError` (first line) and
`*openapi3filter.SecurityRequirementsError` (full text); every remaining
shape is wrapped by `fmt.Errorf("error validating request: %w", err)`. -/
def classifyRequestError (options : Option Options) (e : EngineError) : GoError :=
  match e with
  | .multi subs => getMultiErrorHandlerFromOptions options subs
  | .requestError text =>
      { msg := "error in openapi3filter.RequestError: " ++ firstLine text }
  | .security text =>
      { msg := "error in openapi3filter.SecurityRequirementsError: " ++ text }
  | e' => { msg := "error validating request: " ++ e'.text, cause := some e' }

/-- The request handed to the router. -/
structure HttpRequest where
  method : String
  path : String
deriving DecidableEq, Repr

/-- The `openapi3filter.ResponseValidationInput` assembled by the
orchestrator: captured status, captured headers, captured body bytes. -/
structure ResponseValidationInput where
  status : Nat
  header : List (String × String)
  body : Bytes
deriving DecidableEq, Repr

/-- The loaded OpenAPI document together with the external collaborators
derived from it: the `Servers` field (a nilable slice, hence `Option`), the
gorillamux router built from it, and the openapi3filter engine verdicts for
requests and responses. -/
structure Swagger where
  servers : Option (List String)
  findRoute : HttpRequest → Except RouteErr Unit
  validateRequest : HttpRequest → Option EngineError
  validateResponse : ResponseValidationInput → Option EngineError

/-- Result of `ValidateResponseFromContext`: the final state of the real
response writer, whether the downstream handler was invoked (`c.Next()`),
and the returned error. -/
structure ValidateResult where
  response : ResponseState
  handlerRan : Bool
  err : Option GoError
deriving Repr

/-- The `openapi3filter.ResponseValidationInput` built after the handler ran
under interception: `c.Writer.Status()`, `c.Writer.Header()`, and the
buffered body bytes. -/
def responseInput (handler : List HandlerAction) (writer : ResponseState) :
    ResponseValidationInput :=
  { status := (runIntercepted handler { responseWriter := writer, body := [] }).responseWriter.status,
    header := (runIntercepted handler { responseWriter := writer, body := [] }).responseWriter.headers,
    body := (runIntercepted handler { responseWriter := writer, body := [] }).body }

/-- `ValidateResponseFromContext`: resolve the route (short-circuiting with a
routing error before the handler runs), install the `responseInterceptor`,
run the handler (`c.Next()`), validate the captured response, and on success
write the whole buffer to the embedded real writer once; on engine failure
restore the real writer untouched and classify the error. -/
def ValidateResponseFromContext (swagger : Swagger) (options : Option Options)
    (req : HttpRequest) (handler : List HandlerAction)
    (writer : ResponseState) : ValidateResult :=
  match swagger.findRoute req with
  | .error e => { response := writer, handlerRan := false, err := some (routeErrorGoError e) }
  | .ok _ =>
    match swagger.validateResponse (responseInput handler writer) with
    | some e =>
        { response := (runIntercepted handler { responseWriter := writer, body := [] }).responseWriter,
          handlerRan := true,
          err := some (classifyResponseError options e) }
    | none =>
        { response :=
            { (runIntercepted handler { responseWriter := writer, body := [] }).responseWriter with
              events := (runIntercepted handler { responseWriter := writer, body := [] }).responseWriter.events
                ++ [.bytes (runIntercepted handler { responseWriter := writer, body := [] }).body] },
          handlerRan := true, err := none }

/-- `c.AbortWithStatusJSON(code, fields)`: record the status, append the
JSON-rendered body to the transport, and abort the chain. -/
def abortWithStatusJSON (g : GinState) (code : Nat)
    (fields : List (String × String)) : GinState :=
  { response :=
      { g.response with
        status := code,
        events := g.response.events ++ [.jsonBody fields] },
    aborted := true }

/-- The error branch of the closure returned by
`OapiResponseValidatorWithOptions` (lines 67-78): on a validation error,
either invoke the custom `ErrorHandler` with the message and
`http.StatusInternalServerError` and abort afterwards regardless, or
`c.AbortWithStatusJSON(500, gin.H)` with the single `error` field. -/
def applyErrorResponse (options : Option Options) (r : ValidateResult)
    (g : GinState) : GinState :=
  match r.err with
  | none => { g with response := r.response }
  | some err =>
    match optErrorHandler options with
    | some h => { h { g with response := r.response } err.msg 500 with aborted := true }
    | none => abortWithStatusJSON { g with response := r.response } 500 [("error", err.msg)]

/-- Whether the construction-time servers warning is printed:
`swagger.Servers != nil && (options == nil || !options.SilenceServersWarning)`. -/
def serversWarningEmitted (swagger : Swagger) (options : Option Options) : Bool :=
  swagger.servers.isSome &&
    (match options with
     | none => true
     | some o => !o.silenceServersWarning)

/-- The `SilenceServersWarning` flag carried by an optional `Options`. -/
def silencedFlag : Option Options → Bool
  | none => false
  | some o => o.silenceServersWarning

/-- The per-request closure returned by `OapiResponseValidatorWithOptions`:
run `ValidateResponseFromContext` and handle any error it returns. -/
def OapiResponseValidatorWithOptions (swagger : Swagger) (options : Option Options) :
    HttpRequest → List HandlerAction → GinState → GinState :=
  fun req handler g =>
    applyErrorResponse options
      (ValidateResponseFromContext swagger options req handler g.response) g

/-- The log lines printed while constructing the response validator
middleware: the servers warning, when not silenced. The returned per-request
closure never logs. -/
def responseValidatorConstructionLogs (swagger : Swagger)
    (options : Option Options) : List String :=
  if serversWarningEmitted swagger options then
    ["WARN: OapiResponseValidatorWithOptions called with an OpenAPI spec that has Servers set"]
  else []

/-- `OapiResponseValidator`: the response validator with nil options. -/
def OapiResponseValidator (swagger : Swagger) :
    HttpRequest → List HandlerAction → GinState → GinState :=
  OapiResponseValidatorWithOptions swagger none

/-- Modelled from the spec: `handleValidationError` (referenced by the
request middleware but not part of the provided sources) reports a request
validation failure — if a custom error-reporting callback is configured,
invoke it with the message and status, then mark processing terminated even
if the callback did not; otherwise write the default single-field error body
at that status. -/
def handleValidationError (options : Option Options) (err : GoError)
    (code : Nat) (g : GinState) : GinState :=
  match optErrorHandler options with
  | some h => { h g err.msg code with aborted := true }
  | none => abortWithStatusJSON g code [("error", err.msg)]

/-- `ValidateRequestFromContext`: build the request validation input (its
route-resolution failure, produced inside the unprovided
`getRequestValidationInput` and modelled from the spec as the raw router
error text behind the wrapping message, is returned before the engine runs),
then validate the request and classify any engine error. -/
def ValidateRequestFromContext (swagger : Swagger) (options : Option Options)
    (req : HttpRequest) : Option GoError :=
  match swagger.findRoute req with
  | .error e =>
      some { msg := "error getting request validation input from route: " ++ e.text }
  | .ok _ =>
    match swagger.validateRequest req with
    | none => none
    | some e => some (classifyRequestError options e)

/-- The per-request closure returned by `OapiRequestValidatorWithOptions`:
validate the request, report any failure at `http.StatusBadRequest`, then
`c.Next()` (which runs the handler only when the chain was not aborted). -/
def OapiRequestValidatorWithOptions (swagger : Swagger) (options : Option Options) :
    HttpRequest → List HandlerAction → GinState → GinState :=
  fun req handler g =>
    let g1 :=
      match ValidateRequestFromContext swagger options req with
      | none => g
      | some err => handleValidationError options err 400 g
    if g1.aborted then g1
    else { g1 with response := runDirect handler g1.response }

/-- `OapiRequestValidator`: the request validator with nil options. -/
def OapiRequestValidator (swagger : Swagger) :
    HttpRequest → List HandlerAction → GinState → GinState :=
  OapiRequestValidatorWithOptions swagger none

/-- `OapiResponseValidatorFromYamlFile`: read the file, load the document,
and return the middleware — which the source builds with
`OapiRequestValidator`, not `OapiResponseValidator`. File reading and YAML
loading are external; their outcomes are parameters. -/
def OapiResponseValidatorFromYamlFile (readResult : Except String Bytes)
    (loadFromData : Bytes → Except String Swagger) (path : String) :
    Except String (HttpRequest → List HandlerAction → GinState → GinState) :=
  match readResult with
  | .error e => .error ("error reading " ++ path ++ ": " ++ e)
  | .ok data =>
    match loadFromData data with
    | .error e => .error ("error parsing " ++ path ++ " as Swagger YAML: " ++ e)
    | .ok swagger => .ok (OapiRequestValidator swagger)

/-! ### Shared helper lemmas and concrete fixtures -/

theorem takeWhile_all {p : Char → Bool} :
    ∀ xs : List Char, (∀ x ∈ xs, p x = true) → xs.takeWhile p = xs := by
  intro xs hall
  induction xs with
  | nil => simp
  | cons a as ih =>
      have ha : p a = true := hall a (by simp)
      simp only [List.takeWhile_cons, ha, if_true]
      rw [ih (fun x hx => hall x (by simp [hx]))]

theorem takeWhile_all_append_stop {p : Char → Bool} :
    ∀ (xs : List Char) (y : Char) (ys : List Char),
      (∀ x ∈ xs, p x = true) → p y = false →
      (xs ++ y :: ys).takeWhile p = xs := by
  intro xs y ys hall hy
  induction xs with
  | nil => simp [List.takeWhile, hy]
  | cons a as ih =>
      have ha : p a = true := hall a (by simp)
      simp only [List.cons_append, List.takeWhile_cons, ha, if_true]
      rw [ih (fun x hx => hall x (by simp [hx]))]

theorem firstLine_append (l r : String) (h : ∀ c ∈ l.data, c ≠ '\n') :
    firstLine (l ++ "\n" ++ r) = l := by
  unfold firstLine
  have hd : (l ++ "\n" ++ r).data = l.data ++ '\n' :: r.data := by
    simp [String.data_append]
  rw [hd, takeWhile_all_append_stop l.data '\n' r.data
      (fun x hx => by simp [h x hx]) (by simp)]

theorem firstLine_no_newline (l : String) (h : ∀ c ∈ l.data, c ≠ '\n') :
    firstLine l = l := by
  unfold firstLine
  rw [takeWhile_all l.data (fun x hx => by simp [h x hx])]

/-- A concrete request. -/
def req0 : HttpRequest := { method := "GET", path := "/resource" }

/-- A fresh real response writer (gin's default status is 200). -/
def writer0 : ResponseState := { status := 200, headers := [], events := [] }

/-- A fresh per-request gin context state. -/
def g0 : GinState := { response := writer0, aborted := false }

/-- A concrete handler: set a status, a content type, and write a body. -/
def handler0 : List HandlerAction :=
  [.writeHeader 200, .setHeader "Content-Type" "application/json",
   .write [123, 34, 105, 100, 34, 58, 55, 125]]

/-- A contract whose router matches everything and whose engine accepts
everything. -/
def swaggerAccept : Swagger :=
  { servers := none,
    findRoute := fun _ => .ok (),
    validateRequest := fun _ => none,
    validateResponse := fun _ => none }

/-- A contract whose engine rejects every response with a structured
multi-line `*openapi3filter.ResponseError`. -/
def swaggerRejectResp : Swagger :=
  { swaggerAccept with
    validateResponse := fun _ =>
      some (.responseError "status is not supported\nextra detail") }

/-- A contract whose router rejects everything with a typed
`*routers.RouteError`. -/
def swaggerNoRoute : Swagger :=
  { swaggerAccept with
    findRoute := fun _ => .error (.routeError "no matching operation was found") }

/-- A contract whose router rejects everything with an untyped error. -/
def swaggerRouteOther : Swagger :=
  { swaggerAccept with findRoute := fun _ => .error (.other "boom") }

/-- A contract whose engine rejects every request with an unrecognized
error shape. -/
def swaggerRejectReq : Swagger :=
  { swaggerAccept with validateRequest := fun _ => some (.other "boom") }

/-- A contract whose `Servers` slice is non-nil but empty. -/
def emptyServersSwagger : Swagger := { swaggerAccept with servers := some [] }

theorem validate_response_accept (swagger : Swagger) (options : Option Options)
    (req : HttpRequest) (handler : List HandlerAction) (writer : ResponseState)
    (hroute : swagger.findRoute req = .ok ())
    (hok : swagger.validateResponse (responseInput handler writer) = none) :
    ValidateResponseFromContext swagger options req handler writer =
      { response :=
          { status := handlerFinalStatus handler writer.status,
            headers := handlerFinalHeaders handler writer.headers,
            events := writer.events ++ [.bytes (handlerWrites handler)] },
        handlerRan := true, err := none } := by
  simp only [ValidateResponseFromContext, hroute, hok]
  rw [runIntercepted_spec]
  simp

theorem validate_response_reject (swagger : Swagger) (options : Option Options)
    (req : HttpRequest) (handler : List HandlerAction) (writer : ResponseState)
    (e : EngineError)
    (hroute : swagger.findRoute req = .ok ())
    (herr : swagger.validateResponse (responseInput handler writer) = some e) :
    ValidateResponseFromContext swagger options req handler writer =
      { response :=
          { status := handlerFinalStatus handler writer.status,
            headers := handlerFinalHeaders handler writer.headers,
            events := writer.events },
        handlerRan := true,
        err := some (classifyResponseError options e) } := by
  simp only [ValidateResponseFromContext, hroute, herr]
  rw [runIntercepted_spec]

/-! ### Claim theorems -/

/-- C6: while the response interceptor is installed, every status-code and
header mutation issued by the handler passes through unchanged to the wrapped
real response writer (the final status and headers agree with running the
same actions against the bare writer), only body writes are diverted into the
in-memory buffer (the buffer collects exactly the bytes the bare writer would
have transmitted, and no transport write happens during interception), and
the interceptor changes nothing else. -/
theorem interceptor_passthrough_frame (actions : List HandlerAction)
    (w : ResponseInterceptor) :
    (runIntercepted actions w).responseWriter.status
        = (runDirect actions w.responseWriter).status
  ∧ (runIntercepted actions w).responseWriter.headers
        = (runDirect actions w.responseWriter).headers
  ∧ (runIntercepted actions w).responseWriter.events = w.responseWriter.events
  ∧ (runIntercepted actions w).body = w.body ++ handlerWrites actions
  ∧ (runDirect actions w.responseWriter).events
        = w.responseWriter.events ++ handlerWriteEvents actions := by
  rw [runIntercepted_spec, runDirect_spec]
  exact ⟨rfl, rfl, rfl, rfl, rfl⟩

/-- C5 counterexample: when the router fails with an error that is not a
typed `*routers.RouteError`, the orchestrator's message is not the raw error
text (here `boom`) but that text behind the `error validating route: `
decoration, so the claim's untyped-error arm is false as stated. -/
theorem response_route_error_prefix_cex :
    (ValidateResponseFromContext swaggerRouteOther none req0 [] writer0).err
        = some { msg := "error validating route: boom" }
  ∧ (ValidateResponseFromContext swaggerRouteOther none req0 [] writer0).err
        ≠ some { msg := "boom" } := by
  exact ⟨rfl, by decide⟩

/-- C5 (amended): for every request for which the contract router finds no
matching operation, the orchestrator returns a routing failure without
invoking the downstream handler and without touching the response writer;
the message is the router error's `Reason` field when the error is a typed
`RouteError`, and otherwise the raw error text behind the fixed
`error validating route: ` decoration. -/
theorem validate_response_no_route (swagger : Swagger) (options : Option Options)
    (req : HttpRequest) (handler : List HandlerAction) (writer : ResponseState)
    (e : RouteErr) (h : swagger.findRoute req = .error e) :
    (ValidateResponseFromContext swagger options req handler writer).handlerRan = false
  ∧ (ValidateResponseFromContext swagger options req handler writer).response = writer
  ∧ (ValidateResponseFromContext swagger options req handler writer).err
      = some (match e with
              | .routeError reason => { msg := reason }
              | .other t => { msg := "error validating route: " ++ t }) := by
  cases e with
  | routeError reason =>
      simp [ValidateResponseFromContext, h, routeErrorGoError]
  | other t =>
      simp [ValidateResponseFromContext, h, routeErrorGoError]

/-- C5 witness: a concrete router miss with a typed `RouteError` carrying
reason `no matching operation was found`. -/
theorem validate_response_no_route_witness :
    swaggerNoRoute.findRoute req0
        = .error (.routeError "no matching operation was found")
  ∧ ((ValidateResponseFromContext swaggerNoRoute none req0 handler0 writer0).handlerRan = false
     ∧ (ValidateResponseFromContext swaggerNoRoute none req0 handler0 writer0).response = writer0
     ∧ (ValidateResponseFromContext swaggerNoRoute none req0 handler0 writer0).err
         = some { msg := "no matching operation was found" }) :=
  ⟨rfl, validate_response_no_route swaggerNoRoute none req0 handler0 writer0
      (.routeError "no matching operation was found") rfl⟩

/-- C7: a structured non-aggregate engine error — a
`*openapi3filter.ResponseError` on the response path, a
`*openapi3filter.RequestError` on the request path — is normalized to only
the first line of its possibly multi-line text, behind the fixed identifying
package-and-type message decoration. -/
theorem structured_error_first_line (options : Option Options) (l r : String)
    (h : ∀ c ∈ l.data, c ≠ '\n') :
    classifyResponseError options (.responseError (l ++ "\n" ++ r))
        = { msg := "error in openapi3filter.ResponseError: " ++ l }
  ∧ classifyRequestError options (.requestError (l ++ "\n" ++ r))
        = { msg := "error in openapi3filter.RequestError: " ++ l }
  ∧ classifyResponseError options (.responseError l)
        = { msg := "error in openapi3filter.ResponseError: " ++ l }
  ∧ classifyRequestError options (.requestError l)
        = { msg := "error in openapi3filter.RequestError: " ++ l } := by
  refine ⟨?_, ?_, ?_, ?_⟩ <;>
    simp [classifyResponseError, classifyRequestError,
      firstLine_append l r h, firstLine_no_newline l h]

/-- C7 witness: the multi-line `status is not supported` engine text is
truncated to its first line on both paths. -/
theorem structured_error_first_line_witness :
    (∀ c ∈ ("status is not supported" : String).data, c ≠ '\n')
  ∧ classifyResponseError none
        (.responseError ("status is not supported" ++ "\n" ++ "extra detail"))
      = { msg := "error in openapi3filter.ResponseError: "
            ++ "status is not supported" } :=
  ⟨by decide,
   (structured_error_first_line none "status is not supported" "extra detail"
      (by decide)).1⟩

/-- C2: for every request whose handler output the engine accepts, the client
receives exactly the bytes the handler wrote — committed as one transport
write of the whole buffer — with the handler's status code and headers
(hence content-type) exactly as the handler set them, and the chain is not
aborted. -/
theorem response_validator_transparent_on_accept (swagger : Swagger)
    (options : Option Options) (req : HttpRequest) (handler : List HandlerAction)
    (g : GinState)
    (hroute : swagger.findRoute req = .ok ())
    (hok : swagger.validateResponse (responseInput handler g.response) = none) :
    (OapiResponseValidatorWithOptions swagger options req handler g).response.status
        = handlerFinalStatus handler g.response.status
  ∧ (OapiResponseValidatorWithOptions swagger options req handler g).response.headers
        = handlerFinalHeaders handler g.response.headers
  ∧ (OapiResponseValidatorWithOptions swagger options req handler g).response.events
        = g.response.events ++ [.bytes (handlerWrites handler)]
  ∧ (OapiResponseValidatorWithOptions swagger options req handler g).aborted
        = g.aborted := by
  have hacc := validate_response_accept swagger options req handler g.response hroute hok
  simp [OapiResponseValidatorWithOptions, hacc, applyErrorResponse]

/-- C2 witness: a handler that sets status 200, content type
`application/json`, and writes a JSON body, against an engine that accepts
it. -/
theorem response_validator_transparent_on_accept_witness :
    swaggerAccept.findRoute req0 = .ok ()
  ∧ swaggerAccept.validateResponse (responseInput handler0 g0.response) = none
  ∧ ((OapiResponseValidatorWithOptions swaggerAccept none req0 handler0 g0).response.status
        = handlerFinalStatus handler0 g0.response.status
     ∧ (OapiResponseValidatorWithOptions swaggerAccept none req0 handler0 g0).response.headers
        = handlerFinalHeaders handler0 g0.response.headers
     ∧ (OapiResponseValidatorWithOptions swaggerAccept none req0 handler0 g0).response.events
        = g0.response.events ++ [.bytes (handlerWrites handler0)]
     ∧ (OapiResponseValidatorWithOptions swaggerAccept none req0 handler0 g0).aborted
        = g0.aborted) :=
  ⟨rfl, rfl,
   response_validator_transparent_on_accept swaggerAccept none req0 handler0 g0 rfl rfl⟩

/-- C1: the captured body is never partially flushed — when the engine
accepts, the whole buffer is committed as exactly one additional transport
write; when it rejects, the orchestrator commits none of the buffered bytes,
and (without a custom `ErrorHandler`) the middleware transmits only the
default JSON error body instead. -/
theorem response_buffer_all_or_nothing (swagger : Swagger)
    (options : Option Options) (req : HttpRequest) (handler : List HandlerAction)
    (g : GinState)
    (hroute : swagger.findRoute req = .ok ()) :
    ((ValidateResponseFromContext swagger options req handler g.response).err = none →
        (OapiResponseValidatorWithOptions swagger options req handler g).response.events
          = g.response.events ++ [.bytes (handlerWrites handler)])
  ∧ (∀ err,
        (ValidateResponseFromContext swagger options req handler g.response).err = some err →
        (ValidateResponseFromContext swagger options req handler g.response).response.events
            = g.response.events
      ∧ (optErrorHandler options = none →
          (OapiResponseValidatorWithOptions swagger options req handler g).response.events
            = g.response.events ++ [.jsonBody [("error", err.msg)]])) := by
  cases hv : swagger.validateResponse (responseInput handler g.response) with
  | none =>
      have hacc := validate_response_accept swagger options req handler g.response hroute hv
      constructor
      · intro _
        simp [OapiResponseValidatorWithOptions, hacc, applyErrorResponse]
      · intro err herr
        rw [hacc] at herr
        simp at herr
  | some e =>
      have hrej := validate_response_reject swagger options req handler g.response e hroute hv
      constructor
      · intro hnone
        rw [hrej] at hnone
        simp at hnone
      · intro err herr
        rw [hrej] at herr
        simp only [Option.some.injEq] at herr
        constructor
        · rw [hrej]
        · intro hoe
          simp [OapiResponseValidatorWithOptions, hrej, applyErrorResponse, hoe,
            abortWithStatusJSON, herr]

/-- C1 witness: a rejecting engine with no custom error handler — the
handler's bytes never reach the transport and only the default error body
does. -/
theorem response_buffer_all_or_nothing_witness :
    swaggerRejectResp.findRoute req0 = .ok ()
  ∧ (((ValidateResponseFromContext swaggerRejectResp none req0 handler0 g0.response).err = none →
        (OapiResponseValidatorWithOptions swaggerRejectResp none req0 handler0 g0).response.events
          = g0.response.events ++ [.bytes (handlerWrites handler0)])
     ∧ (∀ err,
          (ValidateResponseFromContext swaggerRejectResp none req0 handler0 g0.response).err
              = some err →
          (ValidateResponseFromContext swaggerRejectResp none req0 handler0 g0.response).response.events
              = g0.response.events
        ∧ (optErrorHandler none = none →
            (OapiResponseValidatorWithOptions swaggerRejectResp none req0 handler0 g0).response.events
              = g0.response.events ++ [.jsonBody [("error", err.msg)]]))) :=
  ⟨rfl, response_buffer_all_or_nothing swaggerRejectResp none req0 handler0 g0 rfl⟩

/-- C4: on every failure returned by the response orchestrator, the
middleware responds at the fixed status 500 — a configured custom
`ErrorHandler` is invoked with the normalized message and 500 and the chain
is aborted afterward even if the handler did not abort; with no custom
handler the middleware aborts with status 500 and the single-field JSON
error body. -/
theorem response_failure_handled_500 (swagger : Swagger)
    (options : Option Options) (req : HttpRequest) (handler : List HandlerAction)
    (g : GinState) (err : GoError)
    (h : (ValidateResponseFromContext swagger options req handler g.response).err = some err) :
    (∀ eh, optErrorHandler options = some eh →
        OapiResponseValidatorWithOptions swagger options req handler g
          = { eh { g with
                   response := (ValidateResponseFromContext swagger options
                     req handler g.response).response } err.msg 500 with
              aborted := true })
  ∧ (optErrorHandler options = none →
        OapiResponseValidatorWithOptions swagger options req handler g
          = { response :=
                { (ValidateResponseFromContext swagger options req handler g.response).response with
                  status := 500,
                  events := (ValidateResponseFromContext swagger options
                    req handler g.response).response.events
                      ++ [.jsonBody [("error", err.msg)]] },
              aborted := true }) := by
  constructor
  · intro eh heh
    simp [OapiResponseValidatorWithOptions, applyErrorResponse, h, heh]
  · intro hoe
    simp [OapiResponseValidatorWithOptions, applyErrorResponse, h, hoe, abortWithStatusJSON]

/-- A custom error handler that records the report but does not abort. -/
def customNoAbortHandler : GinState → String → Nat → GinState :=
  fun g msg code =>
    { g with
      response :=
        { g.response with
          status := code,
          events := g.response.events ++ [.jsonBody [("custom", msg)]] } }

/-- Options carrying the non-aborting custom error handler. -/
def optsCustom : Options := { errorHandler := some customNoAbortHandler }

/-- C4 witness: a rejecting engine with the non-aborting custom handler —
the handler is invoked with the normalized message and 500, and the chain is
aborted anyway. -/
theorem response_failure_handled_500_witness :
    (ValidateResponseFromContext swaggerRejectResp (some optsCustom) req0
        handler0 g0.response).err
      = some { msg := "error in openapi3filter.ResponseError: status is not supported" }
  ∧ (∀ eh, optErrorHandler (some optsCustom) = some eh →
        OapiResponseValidatorWithOptions swaggerRejectResp (some optsCustom) req0 handler0 g0
          = { eh { g0 with
                   response := (ValidateResponseFromContext swaggerRejectResp (some optsCustom)
                     req0 handler0 g0.response).response }
                "error in openapi3filter.ResponseError: status is not supported" 500 with
              aborted := true })
  ∧ OapiResponseValidatorWithOptions swaggerRejectResp (some optsCustom) req0 handler0 g0
      = { customNoAbortHandler
            { g0 with
              response := (ValidateResponseFromContext swaggerRejectResp (some optsCustom)
                req0 handler0 g0.response).response }
            "error in openapi3filter.ResponseError: status is not supported" 500 with
          aborted := true } := by
  have h := response_failure_handled_500 swaggerRejectResp (some optsCustom) req0 handler0 g0
      { msg := "error in openapi3filter.ResponseError: status is not supported" } (by decide)
  exact ⟨by decide, h.1, h.1 customNoAbortHandler rfl⟩

/-- A concrete loader outcome: the data parses to `swaggerRejectReq`. -/
def loadFix : Bytes → Except String Swagger := fun _ => .ok swaggerRejectReq

/-- C3: whenever reading and parsing succeed, `OapiResponseValidatorFromYamlFile`
returns the middleware built by `OapiRequestValidator` on the loaded
document; and that middleware is not the one `OapiResponseValidator` builds —
there is a document and request on which the two middlewares behave
differently. -/
theorem from_yaml_file_builds_request_validator :
    (∀ (readResult : Except String Bytes)
        (loadFromData : Bytes → Except String Swagger)
        (path : String) (data : Bytes) (swagger : Swagger),
        readResult = .ok data → loadFromData data = .ok swagger →
        OapiResponseValidatorFromYamlFile readResult loadFromData path
          = .ok (OapiRequestValidator swagger))
  ∧ (∃ (swagger : Swagger) (req : HttpRequest) (handler : List HandlerAction)
        (g : GinState),
        OapiRequestValidator swagger req handler g
          ≠ OapiResponseValidator swagger req handler g) := by
  constructor
  · intro readResult loadFromData path data swagger h1 h2
    subst h1
    simp [OapiResponseValidatorFromYamlFile, h2]
  · refine ⟨swaggerRejectReq, req0, [HandlerAction.write [7]], g0, ?_⟩
    decide

/-- C3 witness: a concrete successful read and parse, returning the request
validator built on the parsed document. -/
theorem from_yaml_file_builds_request_validator_witness :
    OapiResponseValidatorFromYamlFile (.ok [1]) loadFix "api.yaml"
      = .ok (OapiRequestValidator swaggerRejectReq) :=
  from_yaml_file_builds_request_validator.1 (.ok [1]) loadFix "api.yaml" [1]
    swaggerRejectReq rfl rfl

/-- C8: an aggregate `MultiError` is dispatched — before any other
classification arm, on both paths — to the handler chosen by
`getMultiErrorHandlerFromOptions`: the configured `MultiErrorHandler` when
present, else the default one, which joins the texts of all wrapped
sub-errors into one message. -/
theorem multi_error_priority (options : Option Options) (subs : List String) :
    classifyResponseError options (.multi subs)
        = getMultiErrorHandlerFromOptions options subs
  ∧ classifyRequestError options (.multi subs)
        = getMultiErrorHandlerFromOptions options subs
  ∧ (∀ (o : Options) (h : List String → GoError),
        options = some o → o.multiErrorHandler = some h →
        getMultiErrorHandlerFromOptions options subs = h subs)
  ∧ ((options = none ∨ ∃ o, options = some o ∧ o.multiErrorHandler = none) →
        getMultiErrorHandlerFromOptions options subs
          = { msg := "multiple errors encountered: "
                ++ String.intercalate " | " subs }) := by
  refine ⟨rfl, rfl, ?_, ?_⟩
  · intro o h ho hh
    subst ho
    simp [getMultiErrorHandlerFromOptions, hh]
  · intro hcase
    rcases hcase with h | ⟨o, ho, hh⟩
    · subst h
      rfl
    · subst ho
      simp [getMultiErrorHandlerFromOptions, hh, defaultMultiErrorHandler,
        multiErrorText]

/-- A custom aggregate-error handler. -/
def customMulti : List String → GoError :=
  fun subs => { msg := "custom: " ++ String.intercalate "; " subs }

/-- Options carrying the custom aggregate-error handler. -/
def optsMulti : Options := { multiErrorHandler := some customMulti }

/-- C8 witness: with the custom aggregate handler configured, a `MultiError`
is handled by it; and with no options, the default joining handler runs. -/
theorem multi_error_priority_witness :
    classifyResponseError (some optsMulti) (.multi ["a", "b"])
        = getMultiErrorHandlerFromOptions (some optsMulti) ["a", "b"]
  ∧ getMultiErrorHandlerFromOptions (some optsMulti) ["a", "b"]
        = customMulti ["a", "b"]
  ∧ getMultiErrorHandlerFromOptions none ["a", "b"]
        = { msg := "multiple errors encountered: "
              ++ String.intercalate " | " ["a", "b"] } :=
  ⟨(multi_error_priority (some optsMulti) ["a", "b"]).1,
   (multi_error_priority (some optsMulti) ["a", "b"]).2.2.1 optsMulti customMulti rfl rfl,
   (multi_error_priority none ["a", "b"]).2.2.2 (Or.inl rfl)⟩

/-- C9: an engine error matching none of the recognized shapes is returned
behind the generic `error validating response` (respectively
`error validating request`) wrapping message, with the original error
preserved as the wrapped cause, on both classification paths. -/
theorem unrecognized_error_wrapped (options : Option Options) (t : String) :
    classifyResponseError options (.other t)
        = { msg := "error validating response: " ++ t, cause := some (.other t) }
  ∧ classifyRequestError options (.other t)
        = { msg := "error validating request: " ++ t, cause := some (.other t) } :=
  ⟨rfl, rfl⟩

/-- C10 counterexample: a contract whose `Servers` slice is non-nil but
empty still triggers the warning with the flag unset, so the claimed
equivalence with a non-empty server list fails. -/
theorem servers_warning_empty_list_cex :
    serversWarningEmitted emptyServersSwagger none = true
  ∧ emptyServersSwagger.servers = some []
  ∧ silencedFlag none = false :=
  ⟨rfl, rfl, rfl⟩

theorem classifyResponseError_silence (o : Options) (b : Bool) (e : EngineError) :
    classifyResponseError (some { o with silenceServersWarning := b }) e
      = classifyResponseError (some o) e := by
  cases e <;> rfl

theorem classifyRequestError_silence (o : Options) (b : Bool) (e : EngineError) :
    classifyRequestError (some { o with silenceServersWarning := b }) e
      = classifyRequestError (some o) e := by
  cases e <;> rfl

theorem validate_response_silence (swagger : Swagger) (o : Options) (b : Bool)
    (req : HttpRequest) (handler : List HandlerAction) (writer : ResponseState) :
    ValidateResponseFromContext swagger (some { o with silenceServersWarning := b })
        req handler writer
      = ValidateResponseFromContext swagger (some o) req handler writer := by
  unfold ValidateResponseFromContext
  cases hr : swagger.findRoute req with
  | error e => rfl
  | ok u =>
      cases hv : swagger.validateResponse (responseInput handler writer) with
      | none => rfl
      | some e => simp [classifyResponseError_silence]

theorem validate_request_silence (swagger : Swagger) (o : Options) (b : Bool)
    (req : HttpRequest) :
    ValidateRequestFromContext swagger (some { o with silenceServersWarning := b }) req
      = ValidateRequestFromContext swagger (some o) req := by
  unfold ValidateRequestFromContext
  cases hr : swagger.findRoute req with
  | error e => rfl
  | ok u =>
      cases hv : swagger.validateRequest req with
      | none => rfl
      | some e => simp [classifyRequestError_silence]

/-- C10 (amended): the construction-time servers warning is emitted exactly
when the loaded contract's `Servers` field is set (non-nil, even if its list
is empty) and `SilenceServersWarning` is not set — equivalently, the
construction log is nonempty exactly then — and the flag has no per-request
effect: both middlewares behave identically under any value of the flag. -/
theorem servers_warning_characterization (swagger : Swagger)
    (options : Option Options) :
    (serversWarningEmitted swagger options = true ↔
        swagger.servers.isSome = true ∧ silencedFlag options = false)
  ∧ (responseValidatorConstructionLogs swagger options ≠ [] ↔
        serversWarningEmitted swagger options = true)
  ∧ (∀ (o : Options) (b : Bool) (req : HttpRequest)
        (handler : List HandlerAction) (g : GinState),
        OapiResponseValidatorWithOptions swagger
            (some { o with silenceServersWarning := b }) req handler g
          = OapiResponseValidatorWithOptions swagger (some o) req handler g)
  ∧ (∀ (o : Options) (b : Bool) (req : HttpRequest)
        (handler : List HandlerAction) (g : GinState),
        OapiRequestValidatorWithOptions swagger
            (some { o with silenceServersWarning := b }) req handler g
          = OapiRequestValidatorWithOptions swagger (some o) req handler g) := by
  refine ⟨?_, ?_, ?_, ?_⟩
  · cases options with
    | none => simp [serversWarningEmitted, silencedFlag]
    | some o => simp [serversWarningEmitted, silencedFlag]
  · simp [responseValidatorConstructionLogs]
  · intro o b req handler g
    unfold OapiResponseValidatorWithOptions
    rw [validate_response_silence]
    unfold applyErrorResponse
    cases he : (ValidateResponseFromContext swagger (some o) req handler g.response).err with
    | none => rfl
    | some err => rfl
  · intro o b req handler g
    unfold OapiRequestValidatorWithOptions
    rw [validate_request_silence]
    cases he : ValidateRequestFromContext swagger (some o) req with
    | none => rfl
    | some err => rfl

end GinMiddleware
